import Mathlib

/-!
Verification development for `robo_gym/envs/ur5/ur5_avoidance.py`
(class `MovingBoxTargetUR5` and its variants).

Modelling conventions:
* Machine floats are modelled exactly by rationals; a possibly-NaN float is
  `Option ℚ` (`none` = NaN).  IEEE comparison semantics are preserved where
  the source compares possibly-NaN values: any comparison with NaN is false.
* `np.nan_to_num` becomes `nanToNum` (NaN ↦ 0; the model has no infinities).
* Numpy slices `v[a:b]` become `npSlice v a b`, `v[-6:]` becomes `lastN v 6`
  (both truncate exactly as numpy does on short arrays).
* The helper functions of `robo_gym.utils.ur_utils` / `robo_gym.utils.utils`
  and `scipy` (joint-order remapping, joint-value normalization, the
  cartesian→polar target transform) are not part of this repository's source
  tree; the environment functions are therefore parametrised by a `Helpers`
  record holding them, and `specHelpers` provides a concrete instance
  modelled from the spec for evaluation at concrete inputs.
* The robot-server round trips (`set_state_msg`/`send_action`/`get_state_msg`)
  are external I/O: each modelled operation takes the server's reply
  (`serverReply`) as an explicit argument.
-/

/-- A machine-float value: `some q` is the finite value `q`, `none` is NaN. -/
abbrev FloatQ := Option ℚ

/-- `np.nan_to_num` applied elementwise: NaN becomes 0. -/
def nanToNum (l : List FloatQ) : List ℚ :=
  l.map (fun x => x.getD 0)

/-- Numpy slice `v[a:b]` (truncating, like numpy, when the list is short). -/
def npSlice {α : Type} (l : List α) (a b : Nat) : List α :=
  (l.drop a).take (b - a)

/-- Numpy slice `v[-n:]`: the last `n` entries (the whole list when shorter). -/
def lastN {α : Type} (l : List α) (n : Nat) : List α :=
  l.drop (l.length - n)

/-- `abs(v).sum()` for an exact float vector. -/
def sumAbs (l : List ℚ) : ℚ :=
  (l.map (fun x => |x|)).sum

/-- `np.square(v).sum()` for an exact float vector. -/
def sumSq (l : List ℚ) : ℚ :=
  (l.map (fun x => x * x)).sum

/-- IEEE subtraction on possibly-NaN floats: NaN propagates. -/
def fsub (a b : FloatQ) : FloatQ :=
  match a, b with
  | some x, some y => some (x - y)
  | _, _ => none

/-- Squared Euclidean norm of the elementwise difference of two
possibly-NaN float vectors (`np.linalg.norm(x - y) ** 2`): NaN propagates. -/
def distSqF (xs ys : List FloatQ) : FloatQ :=
  (List.zipWith fsub xs ys).foldr
    (fun d acc =>
      match d, acc with
      | some v, some s => some (v * v + s)
      | _, _ => none)
    (some 0)

/-- IEEE `x < c` for a possibly-NaN `x`: false on NaN. -/
def fltB (x : FloatQ) (c : ℚ) : Bool :=
  match x with
  | some v => decide (v < c)
  | none => false

/-- IEEE `x > c` for a possibly-NaN `x`: false on NaN. -/
def fgtB (x : FloatQ) (c : ℚ) : Bool :=
  match x with
  | some v => decide (c < v)
  | none => false

/-- The helper functions the environment calls that live outside this
repository's source tree (`robo_gym.utils.ur_utils`, `robo_gym.utils.utils`,
`scipy.spatial.transform`).  The environment code is parametric in them. -/
structure Helpers where
  /-- `ur5._ros_joint_list_to_ur5_joint_list`: robot-native → standard order. -/
  rosToUR5 : List ℚ → List ℚ
  /-- `ur5._ur_5_joint_list_to_ros_joint_list`: standard → robot-native order. -/
  ur5ToRos : List ℚ → List ℚ
  /-- `ur5.normalize_joint_values`: per-joint normalization map. -/
  normalize : List ℚ → List ℚ
  /-- Lines 299–311 of the source: re-express the target in the end-effector
  frame (via `utils.change_reference_frame` and scipy rotations) and convert
  with `utils.cartesian_to_polar_3d`; arguments: target coordinates,
  end-effector translation, end-effector quaternion. -/
  targetPolar : List ℚ → List ℚ → List ℚ → List ℚ

/-- Modelled from the spec: the joint-order mapping is "a fixed bijection
between 'standard' 6-element joint ordering and 'robot-native' ordering" and
an involution; its concrete permutation lives in `robo_gym.utils.ur_utils`,
outside the source tree.  Modelled as the transposition of the first and
third entries (UR ROS ordering swaps pan and elbow). -/
def swap02 (l : List ℚ) : List ℚ :=
  match l with
  | a :: b :: c :: rest => c :: b :: a :: rest
  | other => other

/-- Modelled from the spec: a concrete `Helpers` instance for evaluating the
environment at explicit inputs.  `normalize` is "a per-joint affine map onto
[-1, 1] using each joint's configured physical range"; the concrete ranges
live outside the source tree, so it is modelled as uniform division by 4
(UR joint commands used here lie within ±4 rad).  `targetPolar` computes
distance and two angles via trigonometry outside the source tree; no claim
depends on its values, only on its arity (3 components), so it is modelled
as the constant `[0, 0, 0]`. -/
def specHelpers : Helpers where
  rosToUR5 := swap02
  ur5ToRos := swap02
  normalize := fun l => l.map (fun x => x / 4)
  targetPolar := fun _ _ _ => [0, 0, 0]

/-- `MovingBoxTargetUR5.max_episode_steps` (line 26). -/
def max_episode_steps : Nat := 1000

/-- `MovingBoxTargetUR5._get_initial_joint_positions` (lines 273–284): the
fixed default joint configuration. -/
def _get_initial_joint_positions : List ℚ :=
  [-0.78, -1.31, -1.31, -2.18, 1.57, 0]

/-- `self.initial_joint_positions_low` (line 270). -/
def initial_joint_positions_low : List ℚ :=
  [-0.9, -1.5, -1.5, -3.14, 1.3, 0.0]

/-- `self.initial_joint_positions_high` (line 271). -/
def initial_joint_positions_high : List ℚ :=
  [-0.7, -1.1, -1.1, 3.14, 1.7, 0.0]

/-- Modelled from the spec: `_get_robot_server_state_len` is inherited from
`UR5Env`, outside the source tree; the spec fixes the telemetry layout at
indices 0‥25 ("[25] binary collision flag", "length is fixed and known"),
so the fixed length is modelled as 26. -/
def robot_server_state_len : Nat := 26

/-- `MovingBoxTargetUR5._robot_server_state_to_env_state` (lines 286–328).
`np.nan_to_num` is applied first (line 297); joint velocities are remapped
(line 316) but, exactly as in the source, do not enter the returned state;
the start joints subtracted for the delta slice are the *fixed default*
configuration `_get_initial_joint_positions()` (line 322). -/
def _robot_server_state_to_env_state (H : Helpers) (rs : List FloatQ) : List ℚ :=
  let r := nanToNum rs
  let target_coord := npSlice r 0 3
  let target_polar := H.targetPolar target_coord (npSlice r 18 21) (npSlice r 21 25)
  let ur_j_pos := H.rosToUR5 (npSlice r 6 12)
  let ur_j_pos_norm := H.normalize ur_j_pos
  let start_joints := H.normalize _get_initial_joint_positions
  let delta_joints := List.zipWith (· - ·) ur_j_pos_norm start_joints
  target_polar ++ ur_j_pos_norm ++ delta_joints

/-- The two values `info['final_status']` can take: the Python strings
`'collision'` and `'success'`. -/
inductive FinalStatus where
  | collision
  | success
  deriving DecidableEq, Repr

/-- The outputs of `MovingBoxTargetUR5._reward` together with the local
reward components the source computes (`dr`, `act_r`, `dist`, `dist_max`)
and the mutation of `self.last_position_on_success`. -/
structure RewardOut where
  reward : ℚ
  done : Bool
  /-- `info['final_status']` if set. -/
  final_status : Option FinalStatus
  /-- `info['target_coord']` if set (raw telemetry slice). -/
  target_coord_info : Option (List FloatQ)
  /-- `self.last_position_on_success` after the call. -/
  last_position_on_success : List ℚ
  dr : ℚ
  act_r : ℚ
  dist : ℚ
  dist_max : ℚ
  deriving DecidableEq, Repr

/-- `MovingBoxTargetUR5._reward` (lines 127–211).

The source computes `distance_to_target = np.linalg.norm(target - ee)` and
compares it with 0.3 / 0.6; both sides of each comparison are nonnegative,
so the comparisons are encoded on the squared distance against 0.3² / 0.6²,
which keeps the definition executable.  The equivalence with the square
root form is proved in `dist_gate_iff_sqrt` and `dist_max_gate_iff_sqrt`
below.  The NaN behaviour of the source is preserved: a NaN distance fails
both comparisons, and a NaN collision flag is not equal to 1.
(The locals `polar_1/polar_2/p1_r/p2_r` of lines 147–158 feed only
commented-out updates and printing, and are omitted.) -/
def _reward (H : Helpers) (rs : List FloatQ) (action : List ℚ)
    (elapsed_steps : Nat) (last_position_on_success : List ℚ) : RewardOut :=
  let env_state := _robot_server_state_to_env_state H rs
  let target_coord := npSlice rs 0 3
  let ee_coord := npSlice rs 18 21
  let dsq := distSqF target_coord ee_coord
  let delta_joint_pos := npSlice env_state 9 15
  -- reward accumulation, mirroring the three `reward +=` updates
  let reward0 : ℚ := 0
  let v1 := 1 * (1 - sumAbs delta_joint_pos / 0.5) * (1 / 1000)
  let dr := if sumAbs (lastN env_state 6) < 0.5 then v1 else 0
  let reward1 := if sumAbs (lastN env_state 6) < 0.5 then reward0 + v1 else reward0
  let v2 := 1 * (1 - sumSq action / (action.length : ℚ)) * (1 / 1000)
  let act_r := if sumAbs action ≤ (action.length : ℚ) then v2 else 0
  let reward2 := if sumAbs action ≤ (action.length : ℚ) then reward1 + v2 else reward1
  let v3 := -2 * ((1 : ℚ) / (max_episode_steps : ℚ))
  let dist := if fltB dsq ((0.3 : ℚ) ^ 2) then v3 else 0
  let reward3 := if fltB dsq ((0.3 : ℚ) ^ 2) then reward2 + v3 else reward2
  -- `dist_max` is computed but its `reward += dist_max` is commented out
  let dist_max :=
    if fgtB dsq ((0.6 : ℚ) ^ 2) then -1 * ((1 : ℚ) / (max_episode_steps : ℚ))
    else (0 : ℚ)
  -- collision / episode-length termination (lines 190–203); the success
  -- branch runs after the collision branch and overwrites the fields it
  -- sets, exactly as the sequential Python assignments do
  let collision := rs.getD 25 (some 0) = some 1
  let done1 := if collision then true else false
  let fs1 : Option FinalStatus := if collision then some FinalStatus.collision else none
  let tc1 : Option (List FloatQ) := if collision then some target_coord else none
  let lp1 := if collision then [] else last_position_on_success
  let done2 := if max_episode_steps ≤ elapsed_steps then true else done1
  let fs2 := if max_episode_steps ≤ elapsed_steps then some FinalStatus.success else fs1
  let tc2 := if max_episode_steps ≤ elapsed_steps then some target_coord else tc1
  let lp2 := if max_episode_steps ≤ elapsed_steps then [] else lp1
  { reward := reward3
    done := done2
    final_status := fs2
    target_coord_info := tc2
    last_position_on_success := lp2
    dr := dr
    act_r := act_r
    dist := dist
    dist_max := dist_max }

/-- The exceptions the modelled operations can raise: a failed `assert`
(the spec's ValidationError) and `InvalidStateError` (the spec's
StateError).  `RobotServerError` belongs to the external transport, which
the model replaces by an explicit server reply. -/
inductive PyError where
  | assertionError
  | invalidStateError
  deriving DecidableEq, Repr

/-- The observation-space membership check `observation_space.contains`
(space built in `_get_observation_space`, lines 28–56): length 15; the three
polar components are bounded by ±∞; the six normalized joint positions and
the six deltas are bounded by ±(1 + 0.1). -/
def observation_contains (s : List ℚ) : Bool :=
  decide (s.length = 15) &&
    (npSlice s 3 15).all (fun x => decide (-(1.1 : ℚ) ≤ x) && decide (x ≤ (1.1 : ℚ)))

/-- The action-space membership check `action_space.contains` for dimension
`d`.  For `d = 3` and `d = 5` the space is `Box(low=-1.0, high=1.0)` (lines
331–336); for the base `d = 6` the space comes from `UR5Env`, outside the
source tree, and is modelled from the spec: "length 3, 5, or 6 ... each
component in [-1, 1]". -/
def action_space_contains (d : Nat) (a : List ℚ) : Bool :=
  decide (a.length = d) &&
    a.all (fun x => decide (-(1 : ℚ) ≤ x) && decide (x ≤ (1 : ℚ)))

/-- Numpy slice assignment `base[o : o + len(a)] = base[o : o + len(a)] + a`. -/
def slice_add (base : List ℚ) (o : Nat) (a : List ℚ) : List ℚ :=
  base.take o ++ List.zipWith (· + ·) ((base.drop o).take a.length) a
    ++ base.drop (o + a.length)

/-- Lines 233–242 of `MovingBoxTargetUR5.step`: the commanded joint
configuration (standard order), before the joint-order conversion for
sending: start from `_get_initial_joint_positions()` and add the action to
the sub-range selected by its length. -/
def step_command (action : List ℚ) : List ℚ :=
  let initial_joint_positions := _get_initial_joint_positions
  if action.length = 3 then slice_add initial_joint_positions 1 action
  else if action.length = 5 then slice_add initial_joint_positions 0 action
  else if action.length = 6 then List.zipWith (· + ·) initial_joint_positions action
  else initial_joint_positions

/-- Lines 118–123 of `reset` (and 407–412 of the variant): checks each
remapped joint position against `initial_joint_positions_low/high` with
tolerance 0.1; `true` means the check passes. -/
def reset_joint_range_ok (joint_positions : List ℚ) : Bool :=
  (List.range joint_positions.length).all (fun j =>
    let p := joint_positions.getD j 0
    !(decide (p + 0.1 < initial_joint_positions_low.getD j 0)
      || decide (initial_joint_positions_high.getD j 0 < p - 0.1)))

/-- Lines 77–83 of `reset`: selection of the initial joint configuration.
`if initial_joint_positions:` uses Python truthiness, so `None` *and the
empty list* both fall through to the continue/default selection; a truthy
argument must satisfy `assert len(initial_joint_positions) == 6`. -/
def reset_initial_selection (initial_joint_positions : Option (List ℚ))
    (last_position_on_success : List ℚ) (ty : String) :
    Except PyError (List ℚ) :=
  let fallback : Except PyError (List ℚ) :=
    if last_position_on_success ≠ [] ∧ ty = "continue" then
      Except.ok last_position_on_success
    else Except.ok _get_initial_joint_positions
  match initial_joint_positions with
  | some l =>
    if l ≠ [] then
      if l.length = 6 then Except.ok l
      else Except.error PyError.assertionError
    else fallback
  | none => fallback

/-- The outputs of `MovingBoxTargetUR5.reset`. -/
structure ResetOut where
  /-- the returned `self.state`. -/
  state : List ℚ
  /-- `self.start_position = self.state[3:9]` (line 111). -/
  start_position : List ℚ
  /-- `self.elapsed_steps` after the call (always 0). -/
  elapsed_steps : Nat
  /-- `self.prev_rs_state`: the stored telemetry, post `np.nan_to_num`
  (line 100). -/
  prev_rs_state : List ℚ
  deriving DecidableEq, Repr

/-- `MovingBoxTargetUR5.reset` (lines 59–125).  The robot-server round trip
is external: `serverReply` is the telemetry `get_state_msg` returns.  The
initial-configuration validation (lines 77–79) runs before the reset
command is composed and sent, so its failure does not depend on
`serverReply`. -/
def reset (H : Helpers) (initial_joint_positions : Option (List ℚ))
    (last_position_on_success : List ℚ) (ty : String)
    (serverReply : List FloatQ) : Except PyError ResetOut :=
  match reset_initial_selection initial_joint_positions last_position_on_success ty with
  | Except.error e => Except.error e
  | Except.ok sel =>
    -- line 85: the reset command carries `ur5ToRos sel`; sending it is
    -- external I/O and `rs_state` is then rebound to the server reply
    let _cmd_joints := H.ur5ToRos sel
    -- line 100: `np.nan_to_num` on the received state
    let rs_state := nanToNum serverReply
    -- line 104: length check
    if rs_state.length ≠ robot_server_state_len then
      Except.error PyError.invalidStateError
    else
      let state := _robot_server_state_to_env_state H (rs_state.map some)
      let start_position := npSlice state 3 9
      -- line 114: observation-space check
      if !(observation_contains state) then
        Except.error PyError.invalidStateError
      -- lines 118–123: joint-range check
      else if (last_position_on_success = [] ∨ ty = "random")
          ∧ !(reset_joint_range_ok (H.rosToUR5 (npSlice rs_state 6 12))) then
        Except.error PyError.invalidStateError
      else
        Except.ok { state := state, start_position := start_position,
                    elapsed_steps := 0, prev_rs_state := rs_state }

/-- The outputs of `MovingBoxTargetUR5.step`. -/
structure StepOut where
  state : List ℚ
  reward : ℚ
  done : Bool
  final_status : Option FinalStatus
  /-- `self.prev_rs_state`: stored raw, with *no* `np.nan_to_num` (line 252). -/
  prev_rs_state : List FloatQ
  /-- `self.last_position_on_success` after the call. -/
  last_position_on_success : List ℚ
  /-- the native-order action sent to the server (line 245). -/
  rs_action : List ℚ
  deriving DecidableEq, Repr

/-- `MovingBoxTargetUR5.step` (lines 226–266) for an environment with action
dimension `d`.  The step counter is incremented *before* the action-space
assertion, so the counter in the returned pair is advanced even when the
assertion fails.  The received telemetry is used raw (no `np.nan_to_num`),
both for the stored `prev_rs_state` and for `_reward`. -/
def step (H : Helpers) (d : Nat) (elapsed_steps : Nat)
    (last_position_on_success : List ℚ) (action : List ℚ)
    (serverReply : List FloatQ) : Nat × Except PyError StepOut :=
  let elapsed := elapsed_steps + 1
  if !(action_space_contains d action) then
    (elapsed, Except.error PyError.assertionError)
  else
    let rs_action := H.ur5ToRos (step_command action)
    let rs_state := serverReply
    let state := _robot_server_state_to_env_state H rs_state
    if !(observation_contains state) then
      (elapsed, Except.error PyError.invalidStateError)
    else
      let r := _reward H rs_state action elapsed last_position_on_success
      (elapsed, Except.ok
        { state := state, reward := r.reward, done := r.done,
          final_status := r.final_status, prev_rs_state := rs_state,
          last_position_on_success := r.last_position_on_success,
          rs_action := rs_action })

/-- A well-formed server reply used for concrete evaluations: 26 entries,
all zero except the native-order joint positions at indices 6‥11, which
hold the default configuration. -/
def goodReply : List FloatQ :=
  [some 0, some 0, some 0, some 0, some 0, some 0,
   some (-1.31), some (-1.31), some (-0.78), some (-2.18), some 1.57, some 0,
   some 0, some 0, some 0, some 0, some 0, some 0,
   some 0, some 0, some 0, some 0, some 0, some 0,
   some 0, some 0]

/-- An explicit (non-default) initial joint configuration for reset, inside
the allowed per-joint range. -/
def c3Init : List ℚ := [-0.8, -1.2, -1.2, 0, 1.5, 0]

/-- A server reply echoing `c3Init` in native joint order. -/
def c3Reply : List FloatQ :=
  [some 0, some 0, some 0, some 0, some 0, some 0,
   some (-1.2), some (-1.2), some (-0.8), some 0, some 1.5, some 0,
   some 0, some 0, some 0, some 0, some 0, some 0,
   some 0, some 0, some 0, some 0, some 0, some 0,
   some 0, some 0]

/-- A telemetry vector whose collision flag (index 25) is set. -/
def collisionReply : List FloatQ :=
  [some 0, some 0, some 0, some 0, some 0, some 0,
   some 0, some 0, some 0, some 0, some 0, some 0,
   some 0, some 0, some 0, some 0, some 0, some 0,
   some 0, some 0, some 0, some 0, some 0, some 0,
   some 0, some 1]

/-- A telemetry vector containing a NaN in the target coordinates
(index 0); everything else zero. -/
def nanReply : List FloatQ :=
  [none, some 0, some 0, some 0, some 0, some 0,
   some 0, some 0, some 0, some 0, some 0, some 0,
   some 0, some 0, some 0, some 0, some 0, some 0,
   some 0, some 0, some 0, some 0, some 0, some 0,
   some 0, some 0]

/-- A telemetry vector with `distance_to_target` exactly 0.3: the target is
at (0.3, 0, 0) and the end effector at the origin. -/
def boundaryReply : List FloatQ :=
  [some 0.3, some 0, some 0, some 0, some 0, some 0,
   some 0, some 0, some 0, some 0, some 0, some 0,
   some 0, some 0, some 0, some 0, some 0, some 0,
   some 0, some 0, some 0, some 0, some 0, some 0,
   some 0, some 0]

/-- A telemetry vector with `distance_to_target` exactly 0.6. -/
def boundaryReply6 : List FloatQ :=
  [some 0.6, some 0, some 0, some 0, some 0, some 0,
   some 0, some 0, some 0, some 0, some 0, some 0,
   some 0, some 0, some 0, some 0, some 0, some 0,
   some 0, some 0, some 0, some 0, some 0, some 0,
   some 0, some 0]

/-- The result of `reset specHelpers none [] "random" goodReply`. -/
def resetOutGood : ResetOut where
  state := [0, 0, 0, -39/200, -131/400, -131/400, -109/200, 157/400, 0,
            0, 0, 0, 0, 0, 0]
  start_position := [-39/200, -131/400, -131/400, -109/200, 157/400, 0]
  elapsed_steps := 0
  prev_rs_state := [0, 0, 0, 0, 0, 0, -131/100, -131/100, -39/50, -109/50,
                    157/100, 0, 0, 0, 0, 0, 0, 0, 0, 0, 0, 0, 0, 0, 0, 0]

/-- The result of `step specHelpers 6 0 [] [0,0,0,0,0,0] goodReply`. -/
def stepOutGood : StepOut where
  state := [0, 0, 0, -39/200, -131/400, -131/400, -109/200, 157/400, 0,
            0, 0, 0, 0, 0, 0]
  reward := 0
  done := false
  final_status := none
  prev_rs_state := goodReply
  last_position_on_success := []
  rs_action := [-131/100, -131/100, -39/50, -109/50, 157/100, 0]

deriving instance DecidableEq for Except

/-- The value of the `type` flag selecting a fresh random episode. -/
def tyRandom : String := "random"

/-- The value of the `type` flag selecting continuation of a trajectory. -/
def tyContinue : String := "continue"

/-! ## Supporting lemmas -/

theorem sumAbs_nil : sumAbs [] = 0 := rfl

theorem sumAbs_cons (x : ℚ) (t : List ℚ) : sumAbs (x :: t) = |x| + sumAbs t := by
  simp [sumAbs]

theorem sumSq_nil : sumSq [] = 0 := rfl

theorem sumSq_cons (x : ℚ) (t : List ℚ) : sumSq (x :: t) = x * x + sumSq t := by
  simp [sumSq]

theorem sumAbs_nonneg (l : List ℚ) : 0 ≤ sumAbs l := by
  induction l with
  | nil => simp [sumAbs_nil]
  | cons x t ih =>
    rw [sumAbs_cons]
    have := abs_nonneg x
    linarith

theorem sumSq_nonneg (l : List ℚ) : 0 ≤ sumSq l := by
  induction l with
  | nil => simp [sumSq_nil]
  | cons x t ih =>
    rw [sumSq_cons]
    have := mul_self_nonneg x
    linarith

theorem sumAbs_le_length (l : List ℚ) (h : ∀ x ∈ l, -1 ≤ x ∧ x ≤ 1) :
    sumAbs l ≤ (l.length : ℚ) := by
  induction l with
  | nil => simp [sumAbs_nil]
  | cons x t ih =>
    rw [sumAbs_cons]
    have hx : |x| ≤ 1 := abs_le.mpr (h x (List.mem_cons_self x t))
    have ht := ih (fun y hy => h y (List.mem_cons_of_mem x hy))
    simp only [List.length_cons]
    push_cast
    linarith

theorem sumSq_le_length (l : List ℚ) (h : ∀ x ∈ l, -1 ≤ x ∧ x ≤ 1) :
    sumSq l ≤ (l.length : ℚ) := by
  induction l with
  | nil => simp [sumSq_nil]
  | cons x t ih =>
    rw [sumSq_cons]
    have hx := h x (List.mem_cons_self x t)
    have hx2 : x * x ≤ 1 := by nlinarith [hx.1, hx.2]
    have ht := ih (fun y hy => h y (List.mem_cons_of_mem x hy))
    simp only [List.length_cons]
    push_cast
    linarith

/-- For a 15-element observation, the slice `[9:15]` and the slice `[-6:]`
are the same sub-list. -/
theorem npSlice_eq_lastN {α : Type} (l : List α) (h : l.length = 15) :
    npSlice l 9 15 = lastN l 6 := by
  unfold npSlice lastN
  rw [h]
  norm_num
  exact h.le

theorem lastN_append {α : Type} (a b : List α) (h : b.length = 6) :
    lastN (a ++ b) 6 = b := by
  unfold lastN
  rw [List.length_append, h]
  simp

theorem _reward_dr (H : Helpers) (rs : List FloatQ) (a : List ℚ) (e : Nat) (l : List ℚ) :
    (_reward H rs a e l).dr =
      (if sumAbs (lastN (_robot_server_state_to_env_state H rs) 6) < 0.5 then
        1 * (1 - sumAbs (npSlice (_robot_server_state_to_env_state H rs) 9 15) / 0.5)
          * (1 / 1000)
      else 0) := rfl

theorem _reward_act_r (H : Helpers) (rs : List FloatQ) (a : List ℚ) (e : Nat) (l : List ℚ) :
    (_reward H rs a e l).act_r =
      (if sumAbs a ≤ (a.length : ℚ) then
        1 * (1 - sumSq a / (a.length : ℚ)) * (1 / 1000)
      else 0) := rfl

theorem _reward_dist (H : Helpers) (rs : List FloatQ) (a : List ℚ) (e : Nat) (l : List ℚ) :
    (_reward H rs a e l).dist =
      (if fltB (distSqF (npSlice rs 0 3) (npSlice rs 18 21)) ((0.3 : ℚ) ^ 2) then
        -2 * ((1 : ℚ) / (max_episode_steps : ℚ))
      else 0) := rfl

theorem _reward_dist_max (H : Helpers) (rs : List FloatQ) (a : List ℚ) (e : Nat) (l : List ℚ) :
    (_reward H rs a e l).dist_max =
      (if fgtB (distSqF (npSlice rs 0 3) (npSlice rs 18 21)) ((0.6 : ℚ) ^ 2) then
        -1 * ((1 : ℚ) / (max_episode_steps : ℚ))
      else 0) := rfl

/-- The accumulated reward equals the sum of the three applied components. -/
theorem _reward_components (H : Helpers) (rs : List FloatQ) (a : List ℚ) (e : Nat) (l : List ℚ) :
    (_reward H rs a e l).reward =
      (_reward H rs a e l).dr + (_reward H rs a e l).act_r + (_reward H rs a e l).dist := by
  simp only [_reward]
  split_ifs <;> ring

/-- `distance_to_target < 0.3` in the source is `√d < 0.3`; on the squared
distance this is exactly `d < 0.3²`. -/
theorem sqrt_lt_threshold (v : ℚ) : Real.sqrt (v : ℝ) < 3 / 10 ↔ v < (0.3 : ℚ) ^ 2 := by
  rw [Real.sqrt_lt' (by norm_num)]
  rw [show ((3 : ℝ) / 10) ^ 2 = (((0.3 : ℚ) ^ 2 : ℚ) : ℝ) by norm_num]
  exact Rat.cast_lt

/-- `distance_to_target > 0.6` in the source is `√d > 0.6`; on the squared
distance this is exactly `d > 0.6²`. -/
theorem sqrt_gt_threshold (v : ℚ) : (3 / 5 : ℝ) < Real.sqrt (v : ℝ) ↔ (0.6 : ℚ) ^ 2 < v := by
  rw [Real.lt_sqrt (by norm_num)]
  rw [show ((3 : ℝ) / 5) ^ 2 = (((0.6 : ℚ) ^ 2 : ℚ) : ℝ) by norm_num]
  exact Rat.cast_lt

theorem length_eq_five_exists {α : Type} {l : List α} (h : l.length = 5) :
    ∃ a b c d e, l = [a, b, c, d, e] := by
  rcases List.exists_of_length_succ l h with ⟨a, t, rfl⟩
  simp only [List.length_cons, Nat.succ_inj] at h
  rcases List.exists_of_length_succ t h with ⟨b, t, rfl⟩
  simp only [List.length_cons, Nat.succ_inj] at h
  rcases List.exists_of_length_succ t h with ⟨c, t, rfl⟩
  simp only [List.length_cons, Nat.succ_inj] at h
  rcases List.exists_of_length_succ t h with ⟨d, t, rfl⟩
  simp only [List.length_cons, Nat.succ_inj] at h
  rcases List.exists_of_length_succ t h with ⟨e, t, rfl⟩
  simp only [List.length_cons, Nat.succ_inj] at h
  rw [List.length_eq_zero] at h
  subst h
  exact ⟨a, b, c, d, e, rfl⟩

section RatKernelEval

/- For concrete evaluation by `decide`: Batteries seals the `Rat` arithmetic
operations as irreducible; restore default reducibility locally so the
`Decidable` instances on concrete rationals evaluate. -/
attribute [local semireducible] Rat.add Rat.sub Rat.mul Rat.inv Rat.ofScientific

/-! ## Claim C1 -/

/-- Claim C1 (amended): in `_reward`, a set collision flag (telemetry index
25 equal to 1) always yields `done = true` and clears
`last_position_on_success`; but `info['final_status']` is `'collision'`
only while `elapsed_steps < max_episode_steps` — when
`elapsed_steps ≥ 1000` the episode-length branch runs afterwards and
overwrites it with `'success'`. -/
theorem c1_collision_termination (H : Helpers) (rs : List FloatQ) (a : List ℚ)
    (e : Nat) (l : List ℚ) (hc : rs.getD 25 (some 0) = some 1) :
    (_reward H rs a e l).done = true
    ∧ (_reward H rs a e l).last_position_on_success = []
    ∧ (e < max_episode_steps →
        (_reward H rs a e l).final_status = some FinalStatus.collision)
    ∧ (max_episode_steps ≤ e →
        (_reward H rs a e l).final_status = some FinalStatus.success) := by
  have hc2 : rs[25]?.getD (some 0) = some 1 := by
    simpa [List.getD] using hc
  refine ⟨?_, ?_, ?_, ?_⟩
  · simp only [_reward]
    simp [hc2]
  · simp only [_reward]
    simp [hc2]
  · intro h
    have hm : ¬ max_episode_steps ≤ e := by omega
    simp only [_reward]
    simp [hc2, hm]
  · intro h
    simp only [_reward]
    simp [h]

/-- Claim C1 counterexample: at a telemetry with the collision flag set and
`elapsed_steps = 1000`, `_reward` reports `final_status = 'success'`, not
`'collision'` — refuting the claim's "regardless of the current elapsed
step count (in particular also when elapsed_steps >= 1000)". -/
theorem c1_counterexample :
    collisionReply.getD 25 (some 0) = some 1
    ∧ (_reward specHelpers collisionReply [0, 0, 0, 0, 0, 0] 1000 [1, 2, 3]).final_status
        = some FinalStatus.success
    ∧ (_reward specHelpers collisionReply [0, 0, 0, 0, 0, 0] 1000 [1, 2, 3]).final_status
        ≠ some FinalStatus.collision := by
  decide

/-- Witness for `c1_collision_termination` at a concrete input. -/
theorem c1_witness :
    collisionReply.getD 25 (some 0) = some 1
    ∧ ((_reward specHelpers collisionReply [0, 0, 0, 0, 0, 0] 5 [1, 2, 3]).done = true
      ∧ (_reward specHelpers collisionReply [0, 0, 0, 0, 0, 0] 5 [1, 2, 3]).last_position_on_success = []
      ∧ (5 < max_episode_steps →
          (_reward specHelpers collisionReply [0, 0, 0, 0, 0, 0] 5 [1, 2, 3]).final_status
            = some FinalStatus.collision)
      ∧ (max_episode_steps ≤ 5 →
          (_reward specHelpers collisionReply [0, 0, 0, 0, 0, 0] 5 [1, 2, 3]).final_status
            = some FinalStatus.success)) :=
  ⟨by decide,
   c1_collision_termination specHelpers collisionReply [0, 0, 0, 0, 0, 0] 5 [1, 2, 3] (by decide)⟩

/-! ## Claim C2 -/

/-- Claim C2 (amended): the shaping term `dr` is added exactly when the sum
of absolute values of the last 6 observation components is below 0.5, and
its magnitude is `(1 − |obs[9:15]|₁/0.5)/1000`; but the magnitude slice
`[9:15]` is the *same* slice of the 15-element observation as the gating
slice `[-6:]`, not a different one. -/
theorem c2_dr_gate_and_slice (H : Helpers) (rs : List FloatQ) (a : List ℚ)
    (e : Nat) (l : List ℚ)
    (h15 : (_robot_server_state_to_env_state H rs).length = 15) :
    npSlice (_robot_server_state_to_env_state H rs) 9 15
      = lastN (_robot_server_state_to_env_state H rs) 6
    ∧ (0 < (_reward H rs a e l).dr ↔
        sumAbs (lastN (_robot_server_state_to_env_state H rs) 6) < 0.5)
    ∧ (sumAbs (lastN (_robot_server_state_to_env_state H rs) 6) < 0.5 →
        (_reward H rs a e l).dr =
          1 * (1 - sumAbs (npSlice (_robot_server_state_to_env_state H rs) 9 15) / 0.5)
            * (1 / 1000))
    ∧ (¬ sumAbs (lastN (_robot_server_state_to_env_state H rs) 6) < 0.5 →
        (_reward H rs a e l).dr = 0) := by
  refine ⟨npSlice_eq_lastN _ h15, ?_, ?_, ?_⟩
  · rw [_reward_dr, npSlice_eq_lastN _ h15]
    have h0 := sumAbs_nonneg (lastN (_robot_server_state_to_env_state H rs) 6)
    split_ifs with h
    · constructor
      · intro _; exact h
      · intro _
        have hx : sumAbs (lastN (_robot_server_state_to_env_state H rs) 6) / 0.5 < 1 := by
          rw [div_lt_one (by norm_num)]
          linarith
        nlinarith [hx]
    · constructor
      · intro hlt; exact absurd (lt_irrefl 0 hlt) (by simp)
      · intro hy; exact absurd hy h
  · intro h
    rw [_reward_dr, if_pos h]
  · intro h
    rw [_reward_dr, if_neg h]

/-- Claim C2 counterexample: on a concrete 15-element observation produced
by the transform, the magnitude slice `[9:15]` *equals* the gating slice
(the last 6 components), refuting the claim that they are different slices
of the observation. -/
theorem c2_counterexample :
    npSlice (_robot_server_state_to_env_state specHelpers goodReply) 9 15
      = lastN (_robot_server_state_to_env_state specHelpers goodReply) 6
    ∧ (_robot_server_state_to_env_state specHelpers goodReply).length = 15 := by
  constructor
  · rfl
  · rfl

/-- Witness for `c2_dr_gate_and_slice` at a concrete input. -/
theorem c2_witness :
    (_robot_server_state_to_env_state specHelpers c3Reply).length = 15
    ∧ (npSlice (_robot_server_state_to_env_state specHelpers c3Reply) 9 15
        = lastN (_robot_server_state_to_env_state specHelpers c3Reply) 6
      ∧ (0 < (_reward specHelpers c3Reply [0, 0, 0] 1 []).dr ↔
          sumAbs (lastN (_robot_server_state_to_env_state specHelpers c3Reply) 6) < 0.5)
      ∧ (sumAbs (lastN (_robot_server_state_to_env_state specHelpers c3Reply) 6) < 0.5 →
          (_reward specHelpers c3Reply [0, 0, 0] 1 []).dr =
            1 * (1 - sumAbs (npSlice (_robot_server_state_to_env_state specHelpers c3Reply) 9 15) / 0.5)
              * (1 / 1000))
      ∧ (¬ sumAbs (lastN (_robot_server_state_to_env_state specHelpers c3Reply) 6) < 0.5 →
          (_reward specHelpers c3Reply [0, 0, 0] 1 []).dr = 0)) :=
  ⟨by decide, c2_dr_gate_and_slice specHelpers c3Reply [0, 0, 0] 1 [] (by decide)⟩

/-! ## Claim C3 -/

/-- Claim C3 (amended): the last 6 components of the observation equal the
normalized current joint positions minus the normalized *fixed default*
configuration `_get_initial_joint_positions()` — the transform never uses
the episode's recorded start position, so when reset ran with an explicit
initial configuration (or in continue mode) the delta is still taken
against the default. -/
theorem c3_delta_uses_fixed_default (H : Helpers) (rs : List FloatQ)
    (hd : (List.zipWith (· - ·)
            (H.normalize (H.rosToUR5 (npSlice (nanToNum rs) 6 12)))
            (H.normalize _get_initial_joint_positions)).length = 6) :
    lastN (_robot_server_state_to_env_state H rs) 6 =
      List.zipWith (· - ·)
        (H.normalize (H.rosToUR5 (npSlice (nanToNum rs) 6 12)))
        (H.normalize _get_initial_joint_positions) := by
  simp only [_robot_server_state_to_env_state]
  exact lastN_append _ _ hd

/-- Claim C3 counterexample: after `reset` with the explicit (non-default)
configuration `c3Init`, the episode's start position is `c3Init/4`, yet for
a telemetry echoing that same configuration the last 6 observation
components are *not* `normalized current − start` (which would be zero):
they are `normalized current − normalized default`. -/
theorem c3_counterexample :
    ((reset specHelpers (some c3Init) [] tyRandom c3Reply).map ResetOut.start_position).toOption
      = some ([-1/5, -3/10, -3/10, 0, 3/8, 0] : List ℚ)
    ∧ lastN (_robot_server_state_to_env_state specHelpers c3Reply) 6
        ≠ List.zipWith (· - ·)
            (npSlice (_robot_server_state_to_env_state specHelpers c3Reply) 3 9)
            ([-1/5, -3/10, -3/10, 0, 3/8, 0] : List ℚ) := by
  decide

/-- Witness for `c3_delta_uses_fixed_default` at a concrete input. -/
theorem c3_witness :
    (List.zipWith (· - ·)
        (specHelpers.normalize (specHelpers.rosToUR5 (npSlice (nanToNum c3Reply) 6 12)))
        (specHelpers.normalize _get_initial_joint_positions)).length = 6
    ∧ lastN (_robot_server_state_to_env_state specHelpers c3Reply) 6 =
        List.zipWith (· - ·)
          (specHelpers.normalize (specHelpers.rosToUR5 (npSlice (nanToNum c3Reply) 6 12)))
          (specHelpers.normalize _get_initial_joint_positions) :=
  ⟨by decide, c3_delta_uses_fixed_default specHelpers c3Reply (by decide)⟩

/-! ## Claim C4 -/

/-- Claim C4: in `step`, the commanded joint configuration is the fixed
default configuration with the action added to indices 1‥3 for a length-3
action, indices 0‥4 for length 5, and all 6 indices for length 6; an
all-zero length-6 action commands exactly the default configuration. -/
theorem c4_step_command_ranges (a : List ℚ) :
    (a.length = 3 → step_command a =
      [-0.78, -1.31 + a.getD 0 0, -1.31 + a.getD 1 0, -2.18 + a.getD 2 0, 1.57, 0])
    ∧ (a.length = 5 → step_command a =
      [-0.78 + a.getD 0 0, -1.31 + a.getD 1 0, -1.31 + a.getD 2 0,
       -2.18 + a.getD 3 0, 1.57 + a.getD 4 0, 0])
    ∧ (a.length = 6 → step_command a =
        List.zipWith (· + ·) _get_initial_joint_positions a)
    ∧ (a = [0, 0, 0, 0, 0, 0] → step_command a = _get_initial_joint_positions) := by
  refine ⟨?_, ?_, ?_, ?_⟩
  · intro h
    obtain ⟨x, y, z, rfl⟩ := List.length_eq_three.mp h
    simp [step_command, slice_add, _get_initial_joint_positions]
  · intro h
    obtain ⟨v, w, x, y, z, rfl⟩ := length_eq_five_exists h
    simp [step_command, slice_add, _get_initial_joint_positions]
  · intro h
    simp [step_command, h]
  · intro h
    subst h
    simp [step_command, _get_initial_joint_positions]

/-- Witness for `c4_step_command_ranges` at a concrete input. -/
theorem c4_witness :
    ([(1 : ℚ), 2, 3].length = 3)
    ∧ step_command [(1 : ℚ), 2, 3] =
        [-0.78, -1.31 + [(1 : ℚ), 2, 3].getD 0 0, -1.31 + [(1 : ℚ), 2, 3].getD 1 0,
         -2.18 + [(1 : ℚ), 2, 3].getD 2 0, 1.57, 0] :=
  ⟨by decide, (c4_step_command_ranges [(1 : ℚ), 2, 3]).1 (by decide)⟩

/-! ## Claim C5 -/

/-- Claim C5: the penalty `dist = −2/max_episode_steps` is applied iff
`distance_to_target < 0.3` strictly (`distance_to_target = √d` where `d` is
the squared distance from telemetry), the diagnostic `dist_max` is computed
iff `distance_to_target > 0.6` strictly, and at exactly 0.3 (`d = 0.3²`)
or exactly 0.6 (`d = 0.6²`) neither triggers. -/
theorem c5_distance_thresholds_strict (H : Helpers) (rs : List FloatQ)
    (a : List ℚ) (e : Nat) (l : List ℚ) :
    (∀ v : ℚ, distSqF (npSlice rs 0 3) (npSlice rs 18 21) = some v →
      (((_reward H rs a e l).dist = -2 * ((1 : ℚ) / 1000)) ↔
        Real.sqrt (v : ℝ) < 3 / 10))
    ∧ (∀ v : ℚ, distSqF (npSlice rs 0 3) (npSlice rs 18 21) = some v →
      (((_reward H rs a e l).dist_max = -1 * ((1 : ℚ) / 1000)) ↔
        (3 / 5 : ℝ) < Real.sqrt (v : ℝ)))
    ∧ (distSqF (npSlice rs 0 3) (npSlice rs 18 21) = some ((0.3 : ℚ) ^ 2) →
        (_reward H rs a e l).dist = 0 ∧ (_reward H rs a e l).dist_max = 0)
    ∧ (distSqF (npSlice rs 0 3) (npSlice rs 18 21) = some ((0.6 : ℚ) ^ 2) →
        (_reward H rs a e l).dist = 0 ∧ (_reward H rs a e l).dist_max = 0)
    ∧ ((_reward H rs a e l).dist = 0 ∨ (_reward H rs a e l).dist = -2 * ((1 : ℚ) / 1000)) := by
  refine ⟨?_, ?_, ?_, ?_, ?_⟩
  · intro v hv
    rw [_reward_dist, hv, sqrt_lt_threshold]
    by_cases hlt : v < (0.3 : ℚ) ^ 2
    · rw [if_pos (by simp [fltB, hlt])]
      constructor
      · intro _; exact hlt
      · intro _; norm_num [max_episode_steps]
    · rw [if_neg (by simp [fltB, hlt])]
      constructor
      · intro h0; exact absurd h0 (by norm_num)
      · intro h0; exact absurd h0 hlt
  · intro v hv
    rw [_reward_dist_max, hv, sqrt_gt_threshold]
    by_cases hgt : (0.6 : ℚ) ^ 2 < v
    · rw [if_pos (by simp [fgtB, hgt])]
      constructor
      · intro _; exact hgt
      · intro _; norm_num [max_episode_steps]
    · rw [if_neg (by simp [fgtB, hgt])]
      constructor
      · intro h0; exact absurd h0 (by norm_num)
      · intro h0; exact absurd h0 hgt
  · intro hv
    rw [_reward_dist, _reward_dist_max, hv]
    constructor
    · rw [if_neg (by simp [fltB])]
    · rw [if_neg (by norm_num [fgtB])]
  · intro hv
    rw [_reward_dist, _reward_dist_max, hv]
    constructor
    · rw [if_neg (by norm_num [fltB])]
    · rw [if_neg (by simp [fgtB])]
  · rw [_reward_dist]
    split_ifs
    · right; norm_num [max_episode_steps]
    · left; rfl

/-- Witness for `c5_distance_thresholds_strict` at a concrete input with
the squared distance exactly `0.3²`. -/
theorem c5_witness :
    distSqF (npSlice boundaryReply 0 3) (npSlice boundaryReply 18 21) = some ((0.3 : ℚ) ^ 2)
    ∧ ((_reward specHelpers boundaryReply [0, 0, 0, 0, 0, 0] 1 []).dist = 0
      ∧ (_reward specHelpers boundaryReply [0, 0, 0, 0, 0, 0] 1 []).dist_max = 0) :=
  ⟨by decide,
   (c5_distance_thresholds_strict specHelpers boundaryReply [0, 0, 0, 0, 0, 0] 1 []).2.2.1
     (by decide)⟩

/-! ## Claim C6 -/

/-- Claim C6: the returned reward is exactly `dr + act_r + dist`; the
`dist_max` penalty, although computed (it is `−1/1000` when the squared
distance exceeds `0.6²`, else 0), contributes nothing to the total. -/
theorem c6_reward_is_component_sum (H : Helpers) (rs : List FloatQ)
    (a : List ℚ) (e : Nat) (l : List ℚ) :
    (_reward H rs a e l).reward =
      (_reward H rs a e l).dr + (_reward H rs a e l).act_r + (_reward H rs a e l).dist
    ∧ ((_reward H rs a e l).dist_max = 0
        ∨ (_reward H rs a e l).dist_max = -1 * ((1 : ℚ) / 1000)) := by
  constructor
  · exact _reward_components H rs a e l
  · rw [_reward_dist_max]
    split_ifs
    · right; norm_num [max_episode_steps]
    · left; rfl

/-! ## Claim C9 -/

/-- Claim C9: for any telemetry whose observation has the expected length
15 and any action of dimension 3, 5 or 6 inside the action bounding box,
`dr` and `act_r` each lie in `[0, 1/1000]`, the `act_r` gate is satisfied,
`dist` is 0 or `−2/1000`, and the total reward lies in
`[−2/1000, 2/1000]`. -/
theorem c9_reward_bounds (H : Helpers) (rs : List FloatQ) (a : List ℚ)
    (e : Nat) (l : List ℚ)
    (h15 : (_robot_server_state_to_env_state H rs).length = 15)
    (hlen : a.length = 3 ∨ a.length = 5 ∨ a.length = 6)
    (hbox : ∀ x ∈ a, -1 ≤ x ∧ x ≤ 1) :
    (0 ≤ (_reward H rs a e l).dr ∧ (_reward H rs a e l).dr ≤ 1 / 1000)
    ∧ (0 ≤ (_reward H rs a e l).act_r ∧ (_reward H rs a e l).act_r ≤ 1 / 1000)
    ∧ sumAbs a ≤ (a.length : ℚ)
    ∧ ((_reward H rs a e l).dist = 0 ∨ (_reward H rs a e l).dist = -2 * ((1 : ℚ) / 1000))
    ∧ (-2 * ((1 : ℚ) / 1000) ≤ (_reward H rs a e l).reward
        ∧ (_reward H rs a e l).reward ≤ 2 * ((1 : ℚ) / 1000)) := by
  have hgate : sumAbs a ≤ (a.length : ℚ) := sumAbs_le_length a hbox
  have hdr : 0 ≤ (_reward H rs a e l).dr ∧ (_reward H rs a e l).dr ≤ 1 / 1000 := by
    rw [_reward_dr, npSlice_eq_lastN _ h15]
    have h0 := sumAbs_nonneg (lastN (_robot_server_state_to_env_state H rs) 6)
    split_ifs with h
    · have hx : sumAbs (lastN (_robot_server_state_to_env_state H rs) 6) / 0.5 < 1 := by
        rw [div_lt_one (by norm_num)]
        linarith
      have hx0 : 0 ≤ sumAbs (lastN (_robot_server_state_to_env_state H rs) 6) / 0.5 :=
        div_nonneg h0 (by norm_num)
      constructor <;> nlinarith
    · norm_num
  have hact : 0 ≤ (_reward H rs a e l).act_r ∧ (_reward H rs a e l).act_r ≤ 1 / 1000 := by
    rw [_reward_act_r, if_pos hgate]
    have hl0 : (0 : ℚ) < (a.length : ℚ) := by
      rcases hlen with h | h | h <;> rw [h] <;> norm_num
    have hq0 : 0 ≤ sumSq a / (a.length : ℚ) :=
      div_nonneg (sumSq_nonneg a) hl0.le
    have hq1 : sumSq a / (a.length : ℚ) ≤ 1 :=
      (div_le_one hl0).mpr (sumSq_le_length a hbox)
    constructor <;> nlinarith
  have hdist : (_reward H rs a e l).dist = 0
      ∨ (_reward H rs a e l).dist = -2 * ((1 : ℚ) / 1000) := by
    rw [_reward_dist]
    split_ifs
    · right; norm_num [max_episode_steps]
    · left; rfl
  refine ⟨hdr, hact, hgate, hdist, ?_⟩
  rw [_reward_components]
  rcases hdist with h | h <;> rw [h] <;> constructor <;> linarith [hdr.1, hdr.2, hact.1, hact.2]

/-- Witness for `c9_reward_bounds` at a concrete input. -/
theorem c9_witness :
    ((_robot_server_state_to_env_state specHelpers goodReply).length = 15
      ∧ (([0, 0, 0] : List ℚ).length = 3 ∨ ([0, 0, 0] : List ℚ).length = 5
          ∨ ([0, 0, 0] : List ℚ).length = 6)
      ∧ (∀ x ∈ ([0, 0, 0] : List ℚ), -1 ≤ x ∧ x ≤ 1))
    ∧ ((0 ≤ (_reward specHelpers goodReply [0, 0, 0] 1 []).dr
        ∧ (_reward specHelpers goodReply [0, 0, 0] 1 []).dr ≤ 1 / 1000)
      ∧ (0 ≤ (_reward specHelpers goodReply [0, 0, 0] 1 []).act_r
        ∧ (_reward specHelpers goodReply [0, 0, 0] 1 []).act_r ≤ 1 / 1000)
      ∧ sumAbs [0, 0, 0] ≤ (([0, 0, 0] : List ℚ).length : ℚ)
      ∧ ((_reward specHelpers goodReply [0, 0, 0] 1 []).dist = 0
          ∨ (_reward specHelpers goodReply [0, 0, 0] 1 []).dist = -2 * ((1 : ℚ) / 1000))
      ∧ (-2 * ((1 : ℚ) / 1000) ≤ (_reward specHelpers goodReply [0, 0, 0] 1 []).reward
          ∧ (_reward specHelpers goodReply [0, 0, 0] 1 []).reward ≤ 2 * ((1 : ℚ) / 1000))) :=
  ⟨⟨by decide, by decide, by decide⟩,
   c9_reward_bounds specHelpers goodReply [0, 0, 0] 1 [] (by decide) (by decide) (by decide)⟩

/-! ## Claim C7 -/

/-- Claim C7 (amended): calling `reset` with an explicit *non-empty*
initial joint configuration whose length is not 6 fails with the
`assert`-raised validation error, for every server reply (the check runs
before the reset command is composed and sent).  An *empty* explicit list,
however, is falsy in Python and falls through to the continue/default
selection instead of failing. -/
theorem c7_reset_arity_validation (H : Helpers) (init : List ℚ)
    (l : List ℚ) (ty : String) (reply : List FloatQ)
    (hne : init ≠ []) (hlen : init.length ≠ 6) :
    reset H (some init) l ty reply = Except.error PyError.assertionError := by
  unfold reset reset_initial_selection
  simp [hne, hlen]

/-- Claim C7 counterexample: `reset` with the explicit empty configuration
(length 0 ≠ 6) does *not* fail with a validation error — Python truthiness
treats `[]` as absent, and the call behaves exactly like a reset without an
explicit configuration. -/
theorem c7_counterexample :
    (reset specHelpers (some []) [] tyRandom goodReply).isOk = true
    ∧ reset specHelpers (some []) [] tyRandom goodReply
        = reset specHelpers none [] tyRandom goodReply := by
  constructor
  · decide
  · rfl

/-- Witness for `c7_reset_arity_validation` at a concrete input. -/
theorem c7_witness :
    (([0, 0, 0, 0, 0] : List ℚ) ≠ [] ∧ ([0, 0, 0, 0, 0] : List ℚ).length ≠ 6)
    ∧ reset specHelpers (some [0, 0, 0, 0, 0]) [] tyRandom goodReply
        = Except.error PyError.assertionError :=
  ⟨⟨by decide, by decide⟩,
   c7_reset_arity_validation specHelpers [0, 0, 0, 0, 0] [] tyRandom goodReply
     (by decide) (by decide)⟩

/-! ## Claim C8 -/

/-- Claim C8: `step` applies no NaN-to-zero substitution to the received
telemetry — it stores and consumes the reply raw, and its reward equals
`_reward` on the raw reply — whereas `reset` stores the reply after
`np.nan_to_num`; and at a concrete NaN-carrying telemetry the reward on
the raw reply differs from the reward on the substituted reply, so the
NaNs are really used unsubstituted. -/
theorem c8_step_no_nan_substitution :
    (∀ (H : Helpers) (i : Option (List ℚ)) (l : List ℚ) (t : String)
        (reply : List FloatQ) (out : ResetOut),
      reset H i l t reply = Except.ok out → out.prev_rs_state = nanToNum reply)
    ∧ (∀ (H : Helpers) (d e : Nat) (l a : List ℚ)
        (reply : List FloatQ) (out : StepOut),
      (step H d e l a reply).2 = Except.ok out →
        out.prev_rs_state = reply
        ∧ out.reward = (_reward H reply a (e + 1) l).reward)
    ∧ (_reward specHelpers nanReply [0, 0, 0, 0, 0, 0] 1 []).reward
        ≠ (_reward specHelpers ((nanToNum nanReply).map some) [0, 0, 0, 0, 0, 0] 1 []).reward := by
  refine ⟨?_, ?_, by decide⟩
  · intro H i l t reply out h
    unfold reset at h
    rcases hsel : reset_initial_selection i l t with err | sel
    · rw [hsel] at h
      simp at h
    · rw [hsel] at h
      simp only at h
      split_ifs at h with h1 h2 h3
      simp_all
      rw [← h]
  · intro H d e l a reply out h
    simp only [step] at h
    split_ifs at h with h1 h2
    all_goals
      dsimp only at h
      simp only [Except.ok.injEq] at h
      rw [← h]
      exact ⟨rfl, rfl⟩

/-- Witness for `c8_step_no_nan_substitution` at concrete inputs. -/
theorem c8_witness :
    (reset specHelpers none [] tyRandom goodReply = Except.ok resetOutGood
      ∧ resetOutGood.prev_rs_state = nanToNum goodReply)
    ∧ ((step specHelpers 6 0 [] [0, 0, 0, 0, 0, 0] goodReply).2 = Except.ok stepOutGood
      ∧ (stepOutGood.prev_rs_state = goodReply
        ∧ stepOutGood.reward = (_reward specHelpers goodReply [0, 0, 0, 0, 0, 0] (0 + 1) []).reward)) :=
  ⟨⟨by decide,
    c8_step_no_nan_substitution.1 specHelpers none [] tyRandom goodReply resetOutGood (by decide)⟩,
   ⟨by decide,
    c8_step_no_nan_substitution.2.1 specHelpers 6 0 [] [0, 0, 0, 0, 0, 0] goodReply stepOutGood
      (by decide)⟩⟩

/-! ## Claim C10 -/

/-- Claim C10: `step` with an action outside the declared action space
fails with the `assert`-raised validation error, but only after the
elapsed-step counter has been incremented: the returned counter is the old
counter plus one, so the environment state is not left unchanged by the
failing call. -/
theorem c10_step_counter_incremented_on_invalid_action (H : Helpers)
    (d e : Nat) (l a : List ℚ) (reply : List FloatQ)
    (h : action_space_contains d a = false) :
    (step H d e l a reply).1 = e + 1
    ∧ (step H d e l a reply).2 = Except.error PyError.assertionError
    ∧ (step H d e l a reply).1 ≠ e := by
  have hb : (!action_space_contains d a) = true := by rw [h]; rfl
  refine ⟨?_, ?_, ?_⟩
  · simp only [step]
    split_ifs
    rfl
  · simp [step, hb]
  · simp only [step]
    split_ifs
    omega

/-- Witness for `c10_step_counter_incremented_on_invalid_action` at a
concrete out-of-box action. -/
theorem c10_witness :
    action_space_contains 6 [2, 0, 0, 0, 0, 0] = false
    ∧ ((step specHelpers 6 7 [] [2, 0, 0, 0, 0, 0] goodReply).1 = 7 + 1
      ∧ (step specHelpers 6 7 [] [2, 0, 0, 0, 0, 0] goodReply).2
          = Except.error PyError.assertionError
      ∧ (step specHelpers 6 7 [] [2, 0, 0, 0, 0, 0] goodReply).1 ≠ 7) :=
  ⟨by decide,
   c10_step_counter_incremented_on_invalid_action specHelpers 6 7 [] [2, 0, 0, 0, 0, 0]
     goodReply (by decide)⟩

end RatKernelEval
